import Mathlib

/-!
Shallow embedding of the Day After Day backend handlers.

Sources embedded:
- api/recover.js   (src/unnamed/part_000, first segment)
- api/test-mint.js (src/unnamed/part_000, second segment; session creation)
- api/upload.js    (src/api/upload.js)

External collaborators (redis store, wallet derivation, chain balance
queries, the pinning service, and the poll handler at ./poll/[sessionId].js)
are not in the repository sources; they are modelled as parameters:
- the redis store is explicit state (a counter key and an association list
  of session records keyed by the full store key);
- wallet derivation and USDC balance lookup are function-valued fields of
  the environment, reflecting that a session wallet is a pure function of
  the master seed and the session index;
- the poll handler is a function parameter of the handlers that delegate
  to it, so theorems about branches that return before delegation hold for
  every possible poll behaviour.

JavaScript numbers carrying USDC amounts are modelled as rationals; the
amounts in play (micro-USDC resolution) are exact in both.
-/

namespace DayAfterDay

/-- The `metadata` object of a session record (mode, speed, fileUri, answers). -/
structure SessionMetadata where
  mode : String
  speed : ℚ
  fileUri : String
  answers : List (String × String)
deriving DecidableEq, Repr

/-- A session record as written by api/test-mint.js lines 105-124. -/
structure Session where
  sessionId : String
  sessionIndex : Nat
  paymentAddress : String
  outputType : String
  metadata : SessionMetadata
  status : String
  createdAt : Nat
  expiresAt : Nat
  requiredUsdc : ℚ
  buyerWallet : String
  mintAddress : Option String
  mintSignature : Option String
  sweepSignature : Option String
deriving DecidableEq, Repr

/-- The redis store: the counter at key `day-after-day:session-counter`
(absent key reads as null, `parseInt(counter || '0')`), and session records
under their full keys. `set` prepends, `lookup` takes the first match, so
the newest write wins, matching key-value overwrite semantics. Expiry
(the TTL passed to `redis.set`) is outside the model: no claim consults it. -/
structure Redis where
  counter : Option Nat
  kv : List (String × Session)
deriving DecidableEq, Repr

/-- Environment and external pure services:
`RECOVER_SECRET` (process.env, possibly unset), the `REQUIRED_USDC`
constant from lib/solana.js, the master wallet address, and the derived
wallet address / USDC balance at each session index. Address and balance
are functions of the index alone because `getSessionKeypair` is
deterministic in (master seed, index). -/
structure Env where
  RECOVER_SECRET : Option String
  REQUIRED_USDC : ℚ
  masterAddress : String
  deriveAddress : Nat → String
  usdcBalance : Nat → ℚ

/-- Observable external effects of a handler run, in order. -/
inductive Effect where
  | counterIncr
  | storeWrite (key : String)
  | deriveWallet (i : Nat)
  | queryBalance (i : Nat)
  | mintBroadcast
  | sweepBroadcast
deriving DecidableEq, Repr

/-- HTTP method of a request. -/
inductive Method where
  | GET
  | POST
  | OPTIONS
  | other
deriving DecidableEq, Repr

/-- One entry of the scan result: `{ index, address, balance }` (recover.js line 35). -/
structure ScanEntry where
  index : Nat
  address : String
  balance : ℚ
deriving DecidableEq, Repr

/-- Response body of the recover handler; `α` is the payload type produced
by the delegated poll handler in the `triggered` branch. -/
inductive RecoverBody (α : Type) where
  | empty
  | errorMsg (msg : String)
  | scan (scanned : Nat) (walletsWithUsdc : List ScanEntry)
  | alreadyMinted (mintAddress : Option String)
  | insufficient (balance : ℚ) (required : ℚ) (address : String)
  | triggered (result : α)
deriving DecidableEq, Repr

/-- Query parameters of the recover request (`req.query`). -/
structure RecoverQuery where
  sessionId : Option String
  secret : Option String
deriving DecidableEq, Repr

/-- Lower bound of the scan loop: `Math.max(1, total - 20)` (recover.js
line 30). Nat truncated subtraction agrees with the JS value clamped at 1. -/
def scanLo (total : Nat) : Nat := max 1 (total - 20)

/-- The indices visited by the scan loop `for (let i = scanLo; i <= total; i++)`. -/
def scanIdxs (total : Nat) : List Nat :=
  List.range' (scanLo total) (total + 1 - scanLo total)

/-- Entries accumulated by the scan loop: indices whose derived wallet has
USDC balance strictly greater than 0 (recover.js lines 30-37). -/
def scanFound (env : Env) (total : Nat) : List ScanEntry :=
  (scanIdxs total).filterMap fun i =>
    if env.usdcBalance i > 0 then
      some ⟨i, env.deriveAddress i, env.usdcBalance i⟩
    else none

/-- Effects of the scan loop: one wallet derivation and one balance query
per visited index. -/
def scanEffects (total : Nat) : List Effect :=
  (scanIdxs total).flatMap fun i => [.deriveWallet i, .queryBalance i]

/-- Embedding of api/recover.js. Returns (status code, body), the redis
state after the run, and the effect trace. `poll` is the imported
./poll/[sessionId].js handler (not in the repository sources); its Bool
argument is the `test` query flag, here always false. A JS falsy
`sessionId` (absent or empty string) selects scan mode. -/
def recoverHandler {α : Type} (env : Env)
    (poll : Redis → String → Bool → α × Redis × List Effect)
    (redis : Redis) (method : Method) (q : RecoverQuery) :
    (Nat × RecoverBody α) × Redis × List Effect :=
  match method with
  | .OPTIONS => ((200, .empty), redis, [])
  | .GET =>
    if q.secret ≠ env.RECOVER_SECRET ∧ q.secret ≠ some "dayafterday2026" then
      ((401, .errorMsg "Unauthorized"), redis, [])
    else
      let scanMode : (Nat × RecoverBody α) × Redis × List Effect :=
        let total := redis.counter.getD 0
        ((200, .scan total (scanFound env total)), redis, scanEffects total)
      let sessionMode : String → (Nat × RecoverBody α) × Redis × List Effect :=
        fun sid =>
          match redis.kv.lookup ("session:" ++ sid) with
          | none => ((404, .errorMsg "Session not found"), redis, [])
          | some session =>
            if session.status = "minted" then
              ((200, .alreadyMinted session.mintAddress), redis, [])
            else
              let bal := env.usdcBalance session.sessionIndex
              if bal < env.REQUIRED_USDC then
                ((200, .insufficient bal env.REQUIRED_USDC
                    (env.deriveAddress session.sessionIndex)),
                  redis,
                  [.deriveWallet session.sessionIndex,
                   .queryBalance session.sessionIndex])
              else
                match poll redis sid false with
                | (pres, redis2, peff) =>
                  ((200, .triggered pres), redis2,
                    [.deriveWallet session.sessionIndex,
                     .queryBalance session.sessionIndex] ++ peff)
      match q.sessionId with
      | none => scanMode
      | some sid => if sid = "" then scanMode else sessionMode sid
  | _ => ((405, .errorMsg "Method not allowed"), redis, [])

/-- The session-creation part of api/test-mint.js (lines 99-126): increments
the counter (`redis.incr`: missing key counts as 0, returns the new value),
derives the session wallet, builds the record, and stores it under
`session:<sessionId>`. The three `Date.now()` calls are modelled as the one
timestamp `now`. Returns the created record, the new store, and the effects. -/
def createTestSession (env : Env) (redis : Redis) (now : Nat) :
    Session × Redis × List Effect :=
  let sessionIndex := redis.counter.getD 0 + 1
  let redis1 : Redis := { redis with counter := some sessionIndex }
  let paymentAddress := env.deriveAddress sessionIndex
  let sessionId := "sess_" ++ toString sessionIndex ++ "_" ++ toString now
  let session : Session :=
    { sessionId := sessionId
      sessionIndex := sessionIndex
      paymentAddress := paymentAddress
      outputType := "photo"
      metadata :=
        { mode := "ember"
          speed := 1
          fileUri := "https://gateway.pinata.cloud/ipfs/bafkreigb4doitxxcdanajpe73f4bl7d3pn4iejt2vbpna4freziluvixyq"
          answers := [("test", "true")] }
      status := "pending"
      createdAt := now
      expiresAt := now + 60 * 30 * 1000
      requiredUsdc := env.REQUIRED_USDC
      buyerWallet := env.masterAddress
      mintAddress := none
      mintSignature := none
      sweepSignature := none }
  let redis2 : Redis := { redis1 with kv := ("session:" ++ sessionId, session) :: redis1.kv }
  (session, redis2,
    [.counterIncr, .deriveWallet sessionIndex, .storeWrite ("session:" ++ sessionId)])

/-- Embedding of api/test-mint.js: create a session, then delegate to the
poll handler with the `test` flag set, returning the poll status code and
`{ sessionId, paymentAddress, mintResult }`. -/
def testMintHandler {α : Type} (env : Env)
    (poll : Redis → String → Bool → (Nat × α) × Redis × List Effect)
    (redis : Redis) (method : Method) (now : Nat) :
    (Nat × Option (String × String × α)) × Redis × List Effect :=
  match method with
  | .OPTIONS => ((200, none), redis, [])
  | _ =>
    match createTestSession env redis now with
    | (session, redis2, eff) =>
      match poll redis2 session.sessionId true with
      | ((pcode, pres), redis3, peff) =>
        ((pcode, some (session.sessionId, session.paymentAddress, pres)),
          redis3, eff ++ peff)

/-- The invariant of §3 of the spec: `mintAddress` is non-null iff
`status == minted`. -/
def mintConsistent (s : Session) : Prop :=
  s.mintAddress ≠ none ↔ s.status = "minted"

/-- Modelled from the spec: the write the poll handler (./poll/[sessionId].js,
not in the repository sources) performs on a successful mint — "on success,
write mintAddress/mintSignature, set status minted" (§4.1). -/
def recordMint (s : Session) (addr sig : String) : Session :=
  { s with status := "minted", mintAddress := some addr, mintSignature := some sig }

/-! ## Upload handler (api/upload.js) -/

/-- A parsed multipart file as formidable delivers it: the temp filepath and
the reported mime type (possibly absent). The file bytes only flow into the
opaque pinning request and are not modelled. -/
structure UploadFile where
  filepath : String
  mimetype : Option String
deriving DecidableEq, Repr

/-- A multipart form value, which formidable may deliver as a single value,
an array, or not at all. -/
inductive FormVal (α : Type) where
  | missing
  | single (a : α)
  | array (l : List α)
deriving DecidableEq, Repr

/-- The `files` object of the parsed form (field `file`). -/
structure UploadFiles where
  file : FormVal UploadFile
deriving DecidableEq, Repr

/-- The `fields` object of the parsed form (field `outputType`). -/
structure UploadFields where
  outputType : FormVal String
deriving DecidableEq, Repr

/-- JS `s || fallback` on strings: the empty string is falsy. -/
def jsOr (s fallback : String) : String := if s = "" then fallback else s

/-- JS `String.prototype.trim`: strip leading and trailing whitespace.
(The full JS whitespace set also contains exotic unicode spaces; the usual
ASCII whitespace covered by `Char.isWhitespace` is what matters here.) -/
def jsTrim (s : String) : String :=
  String.mk (((s.data.dropWhile Char.isWhitespace).reverse.dropWhile
    Char.isWhitespace).reverse)

/-- The extension computed at upload.js line 39:
`mimeType.split('/')[1]?.split(';')[0] || 'bin'`. -/
def extOf (mimeType : String) : String :=
  match (mimeType.splitOn "/").drop 1 with
  | [] => "bin"
  | p :: _ =>
    match p.splitOn ";" with
    | [] => "bin"
    | q :: _ => jsOr q "bin"

/-- Response body of the upload handler. `outputType` is an Option because
`fields.outputType` delivered as an empty array leaves the JS variable
undefined, which drops the field from the JSON. -/
inductive UploadBody where
  | empty
  | errorMsg (msg : String)
  | success (fileUri : String) (cid : String) (mimeType : String)
      (outputType : Option String)
deriving DecidableEq, Repr

/-- Embedding of api/upload.js. `pinataJwt` is `process.env.PINATA_JWT`;
`pinIpfsHash` is the `IpfsHash` field of the pinning service's JSON reply
for this request (the service is external; its reply is a parameter).
Thrown errors are caught at line 79 and surface as 500 with the message. -/
def uploadHandler (pinataJwt : Option String) (pinIpfsHash : Option String)
    (method : Method) (files : UploadFiles) (fields : UploadFields) :
    Nat × UploadBody :=
  match method with
  | .OPTIONS => (200, .empty)
  | .POST =>
    let jwt := jsTrim (pinataJwt.getD "")
    if jwt = "" then (500, .errorMsg "PINATA_JWT not configured")
    else
      let fileOpt : Option UploadFile :=
        match files.file with
        | .array l => l.head?
        | .single f => some f
        | .missing => none
      match fileOpt with
      | none => (500, .errorMsg "No file provided")
      | some file =>
        let mimeType :=
          match file.mimetype with
          | none => "video/webm"
          | some m => jsOr m "video/webm"
        let outputType : Option String :=
          match fields.outputType with
          | .array l => l.head?
          | .single s => some (jsOr s "video")
          | .missing => some "video"
        match pinIpfsHash with
        | none => (500, .errorMsg "Pinata upload failed")
        | some cid =>
          if cid = "" then (500, .errorMsg "Pinata upload failed")
          else
            (200, .success ("https://gateway.pinata.cloud/ipfs/" ++ cid)
              cid mimeType outputType)
  | _ => (405, .errorMsg "Method not allowed")

/-! ## Concrete fixtures for witnesses and counterexamples -/

/-- A trivial instantiation of the delegated poll handler: concrete runs of
the branches settled here return before ever invoking it, so any value works. -/
def pollUnit : Redis → String → Bool → Unit × Redis × List Effect :=
  fun r _ _ => ((), r, [])

/-- Recognizer for balance-query effects, used to count scan queries. -/
def isQueryBalance : Effect → Bool
  | .queryBalance _ => true
  | _ => false

/-- A session that already reached `minted`. -/
def sessMinted : Session :=
  { sessionId := "sess_1_1700000000000"
    sessionIndex := 1
    paymentAddress := "addr1"
    outputType := "photo"
    metadata := { mode := "ember", speed := 1, fileUri := "uri", answers := [] }
    status := "minted"
    createdAt := 0
    expiresAt := 1800000
    requiredUsdc := 5
    buyerWallet := "master"
    mintAddress := some "mint111"
    mintSignature := some "sig111"
    sweepSignature := none }

/-- A pending session created while `REQUIRED_USDC = 5`, so its stored
snapshot is 5. -/
def sessPend5 : Session :=
  { sessionId := "sess_2_1700000000001"
    sessionIndex := 2
    paymentAddress := "addr2"
    outputType := "photo"
    metadata := { mode := "ember", speed := 1, fileUri := "uri", answers := [] }
    status := "pending"
    createdAt := 1
    expiresAt := 1800001
    requiredUsdc := 5
    buyerWallet := "master"
    mintAddress := none
    mintSignature := none
    sweepSignature := none }

/-- A pending session whose stored `requiredUsdc` snapshot is 7, differing
from the current `REQUIRED_USDC` constant of 5. -/
def sessPend7 : Session :=
  { sessPend5 with
      sessionId := "sess_3_1700000000002"
      sessionIndex := 3
      paymentAddress := "addr3"
      requiredUsdc := 7 }

/-- Environment with a configured recovery secret, `REQUIRED_USDC = 5`, a
wallet at index 2 holding 4.999999 USDC and one at index 3 holding 4. -/
def envA : Env :=
  { RECOVER_SECRET := some "hunter2"
    REQUIRED_USDC := 5
    masterAddress := "master"
    deriveAddress := fun i => "addr" ++ toString i
    usdcBalance := fun i => if i = 2 then mkRat 4999999 1000000 else if i = 3 then 4 else 0 }

/-- Store holding the three fixture sessions, counter at 3. -/
def redisA : Redis :=
  { counter := some 3
    kv := [("session:" ++ sessMinted.sessionId, sessMinted),
           ("session:" ++ sessPend5.sessionId, sessPend5),
           ("session:" ++ sessPend7.sessionId, sessPend7)] }

/-- Store with 100 sessions counted but no records, all balances zero in
`envScan`; used to count the scan window. -/
def redisScan : Redis := { counter := some 100, kv := [] }

/-- Environment for the scan-window count: every wallet balance is zero. -/
def envScan : Env :=
  { RECOVER_SECRET := some "hunter2"
    REQUIRED_USDC := 5
    masterAddress := "master"
    deriveAddress := fun i => "addr" ++ toString i
    usdcBalance := fun _ => 0 }

/-- Store whose counter key is absent. -/
def redisEmpty : Redis := { counter := none, kv := [] }

/-! ## Theorems -/

/-- C1 (amended): a GET recovery request is rejected with 401 Unauthorized,
with the store untouched and no effects, whenever its `secret` parameter
matches neither the configured recovery secret nor the hard-coded fallback
string, regardless of the other parameters. -/
theorem recover_auth_unauthorized {α : Type} (env : Env)
    (poll : Redis → String → Bool → α × Redis × List Effect)
    (redis : Redis) (q : RecoverQuery)
    (h1 : q.secret ≠ env.RECOVER_SECRET)
    (h2 : q.secret ≠ some "dayafterday2026") :
    recoverHandler env poll redis .GET q
      = ((401, .errorMsg "Unauthorized"), redis, []) := by
  simp only [recoverHandler, if_pos (And.intro h1 h2)]

/-- C1 witness: with the recovery secret configured as "hunter2", a request
carrying secret "wrong" and the sessionId of an existing minted session is
rejected with 401. -/
theorem recover_auth_unauthorized_witness :
    recoverHandler envA pollUnit redisA .GET
        ⟨some "sess_1_1700000000000", some "wrong"⟩
      = ((401, .errorMsg "Unauthorized"), redisA, []) :=
  recover_auth_unauthorized envA pollUnit redisA _ (by decide) (by decide)

/-- C1 counterexample: with the recovery secret configured as "hunter2", a
request whose secret is the hard-coded fallback "dayafterday2026" — which is
not the configured secret — is not rejected: it reaches the session branch
and answers 200. -/
theorem recover_auth_fallback_counterexample :
    (recoverHandler envA pollUnit redisA .GET
        ⟨some "sess_1_1700000000000", some "dayafterday2026"⟩).1
      = (200, .alreadyMinted (some "mint111"))
    ∧ some "dayafterday2026" ≠ envA.RECOVER_SECRET := by
  constructor
  · decide
  · decide

/-- C2: invoking the recovery handler on a session whose stored status is
`minted` returns 200 with the session's existing mintAddress, leaves the
store unchanged, and produces no effects at all — in particular no mint or
sweep broadcast and no store write — for every possible poll handler. -/
theorem recover_minted_idempotent {α : Type} (env : Env)
    (poll : Redis → String → Bool → α × Redis × List Effect)
    (redis : Redis) (q : RecoverQuery) (sid : String) (session : Session)
    (hauth : q.secret = env.RECOVER_SECRET ∨ q.secret = some "dayafterday2026")
    (hq : q.sessionId = some sid) (hne : sid ≠ "")
    (hlook : redis.kv.lookup ("session:" ++ sid) = some session)
    (hminted : session.status = "minted") :
    recoverHandler env poll redis .GET q
      = ((200, .alreadyMinted session.mintAddress), redis, []) := by
  have hok : ¬(q.secret ≠ env.RECOVER_SECRET ∧ q.secret ≠ some "dayafterday2026") := by
    rintro ⟨h1, h2⟩
    cases hauth with
    | inl h => exact h1 h
    | inr h => exact h2 h
  simp only [recoverHandler, if_neg hok, hq, if_neg hne, hlook, if_pos hminted]

/-- C2 witness: re-invoking recovery on the minted fixture session returns
its recorded mint address with no state change and no effects. -/
theorem recover_minted_idempotent_witness :
    recoverHandler envA pollUnit redisA .GET
        ⟨some "sess_1_1700000000000", some "hunter2"⟩
      = ((200, .alreadyMinted (some "mint111")), redisA, []) :=
  recover_minted_idempotent envA pollUnit redisA _ "sess_1_1700000000000"
    sessMinted (Or.inl rfl) rfl (by decide) (by decide) rfl

/-- C3: invoking the recovery handler on a `pending` session whose wallet
balance is below the requirement returns 200 with status "insufficient
balance", performs no store write (the resulting store is the input store,
and the only effects are one wallet derivation and one balance query), and
re-reading the session record afterwards yields the identical object. -/
theorem recover_insufficient_frame {α : Type} (env : Env)
    (poll : Redis → String → Bool → α × Redis × List Effect)
    (redis : Redis) (q : RecoverQuery) (sid : String) (session : Session)
    (hauth : q.secret = env.RECOVER_SECRET ∨ q.secret = some "dayafterday2026")
    (hq : q.sessionId = some sid) (hne : sid ≠ "")
    (hlook : redis.kv.lookup ("session:" ++ sid) = some session)
    (hpending : session.status = "pending")
    (hbal : env.usdcBalance session.sessionIndex < env.REQUIRED_USDC) :
    recoverHandler env poll redis .GET q
      = ((200, .insufficient (env.usdcBalance session.sessionIndex)
            env.REQUIRED_USDC (env.deriveAddress session.sessionIndex)),
          redis,
          [.deriveWallet session.sessionIndex, .queryBalance session.sessionIndex])
      ∧ (recoverHandler env poll redis .GET q).2.1.kv.lookup ("session:" ++ sid)
          = some session := by
  have hok : ¬(q.secret ≠ env.RECOVER_SECRET ∧ q.secret ≠ some "dayafterday2026") := by
    rintro ⟨h1, h2⟩
    cases hauth with
    | inl h => exact h1 h
    | inr h => exact h2 h
  have hnm : ¬(session.status = "minted") := by
    rw [hpending]; decide
  have h1 : recoverHandler env poll redis .GET q
      = ((200, .insufficient (env.usdcBalance session.sessionIndex)
            env.REQUIRED_USDC (env.deriveAddress session.sessionIndex)),
          redis,
          [.deriveWallet session.sessionIndex, .queryBalance session.sessionIndex]) := by
    simp only [recoverHandler, if_neg hok, hq, if_neg hne, hlook, if_neg hnm,
      if_pos hbal]
  exact ⟨h1, by rw [h1]; exact hlook⟩

/-- C3 witness: the pending fixture session with wallet balance 4.999999
against requirement 5 answers "insufficient balance" and the store re-read
returns the identical record. -/
theorem recover_insufficient_frame_witness :
    recoverHandler envA pollUnit redisA .GET
        ⟨some "sess_2_1700000000001", some "hunter2"⟩
      = ((200, .insufficient (envA.usdcBalance 2) envA.REQUIRED_USDC
            (envA.deriveAddress 2)),
          redisA, [.deriveWallet 2, .queryBalance 2])
      ∧ (recoverHandler envA pollUnit redisA .GET
          ⟨some "sess_2_1700000000001", some "hunter2"⟩).2.1.kv.lookup
            ("session:" ++ "sess_2_1700000000001") = some sessPend5 :=
  recover_insufficient_frame envA pollUnit redisA _ "sess_2_1700000000001"
    sessPend5 (Or.inl rfl) rfl (by decide) (by decide) rfl (by decide)

/-- C4 (amended): the insufficiency decision and the `required` field of the
"insufficient balance" response come from the global REQUIRED_USDC constant,
not from the session's stored `requiredUsdc` snapshot; the two agree exactly
when the constant is unchanged since the session's creation, which is what
makes the requiredUsdc=5 / balance=4.999999 scenario produce
{status: insufficient balance, balance: 4.999999, required: 5}. -/
theorem recover_required_from_constant {α : Type} (env : Env)
    (poll : Redis → String → Bool → α × Redis × List Effect)
    (redis : Redis) (q : RecoverQuery) (sid : String) (session : Session)
    (hauth : q.secret = env.RECOVER_SECRET ∨ q.secret = some "dayafterday2026")
    (hq : q.sessionId = some sid) (hne : sid ≠ "")
    (hlook : redis.kv.lookup ("session:" ++ sid) = some session)
    (hnm : session.status ≠ "minted")
    (hbal : env.usdcBalance session.sessionIndex < env.REQUIRED_USDC) :
    (recoverHandler env poll redis .GET q).1
      = (200, .insufficient (env.usdcBalance session.sessionIndex)
          env.REQUIRED_USDC (env.deriveAddress session.sessionIndex)) := by
  have hok : ¬(q.secret ≠ env.RECOVER_SECRET ∧ q.secret ≠ some "dayafterday2026") := by
    rintro ⟨h1, h2⟩
    cases hauth with
    | inl h => exact h1 h
    | inr h => exact h2 h
  simp only [recoverHandler, if_neg hok, hq, if_neg hne, hlook, if_neg hnm,
    if_pos hbal]

/-- C4 witness: the scenario of the claim — stored snapshot 5, constant 5,
wallet holding 4.999999 — yields balance 4.999999 and required 5. -/
theorem recover_required_from_constant_witness :
    (recoverHandler envA pollUnit redisA .GET
        ⟨some "sess_2_1700000000001", some "hunter2"⟩).1
      = (200, .insufficient (mkRat 4999999 1000000) 5 "addr2")
    ∧ sessPend5.requiredUsdc = envA.REQUIRED_USDC := by
  refine ⟨?_, by decide⟩
  exact recover_required_from_constant envA pollUnit redisA _
    "sess_2_1700000000001" sessPend5 (Or.inl rfl) rfl (by decide) (by decide)
    (by decide) (by decide)

/-- C4 counterexample: a stored session whose `requiredUsdc` snapshot is 7
while the constant is 5 gets an "insufficient balance" response whose
required field is 5, not the snapshot 7: the response is not taken from the
stored snapshot. -/
theorem recover_required_snapshot_counterexample :
    (recoverHandler envA pollUnit redisA .GET
        ⟨some "sess_3_1700000000002", some "hunter2"⟩).1
      = (200, .insufficient 4 5 "addr3")
    ∧ sessPend7.requiredUsdc = 7
    ∧ (5 : ℚ) ≠ 7 :=
  ⟨by decide, by decide, by decide⟩

/-- C5 (amended): scan mode (no sessionId) reads the counter, visits the
indices from max(1, total−20) to total — that is the last min(total, 21)
indices, 21 of them once total ≥ 21, not 20 — derives each one's wallet and
queries its balance, returns exactly the entries with balance strictly
greater than 0, and mutates nothing: the resulting store is the input store. -/
theorem recover_scan_window {α : Type} (env : Env)
    (poll : Redis → String → Bool → α × Redis × List Effect)
    (redis : Redis) (q : RecoverQuery)
    (hauth : q.secret = env.RECOVER_SECRET ∨ q.secret = some "dayafterday2026")
    (hq : q.sessionId = none) :
    recoverHandler env poll redis .GET q
      = ((200, .scan (redis.counter.getD 0)
            (scanFound env (redis.counter.getD 0))),
          redis, scanEffects (redis.counter.getD 0))
    ∧ scanIdxs (redis.counter.getD 0)
        = List.range' (scanLo (redis.counter.getD 0))
            (min (redis.counter.getD 0) 21)
    ∧ ∀ i, i ∈ scanIdxs (redis.counter.getD 0) →
        ((⟨i, env.deriveAddress i, env.usdcBalance i⟩ : ScanEntry)
            ∈ scanFound env (redis.counter.getD 0)
          ↔ env.usdcBalance i > 0) := by
  have hok : ¬(q.secret ≠ env.RECOVER_SECRET ∧ q.secret ≠ some "dayafterday2026") := by
    rintro ⟨h1, h2⟩
    cases hauth with
    | inl h => exact h1 h
    | inr h => exact h2 h
  refine ⟨?_, ?_, ?_⟩
  · simp only [recoverHandler, if_neg hok, hq]
  · unfold scanIdxs scanLo
    congr 1
    omega
  · intro i hi
    constructor
    · intro hmem
      unfold scanFound at hmem
      rcases List.mem_filterMap.mp hmem with ⟨a, _, hfa⟩
      by_cases hb : env.usdcBalance a > 0
      · rw [if_pos hb] at hfa
        have heq := Option.some.inj hfa
        have ha : a = i := congrArg ScanEntry.index heq
        rw [ha] at hb
        exact hb
      · rw [if_neg hb] at hfa
        exact absurd hfa (by simp)
    · intro hb
      unfold scanFound
      exact List.mem_filterMap.mpr ⟨i, hi, by rw [if_pos hb]⟩

/-- C5 witness: with counter 100 and all balances zero, scan mode returns
scanned=100 with an empty list and leaves the store unchanged. -/
theorem recover_scan_window_witness :
    recoverHandler envScan pollUnit redisScan .GET ⟨none, some "hunter2"⟩
      = ((200, .scan 100 (scanFound envScan 100)), redisScan,
          scanEffects 100) :=
  (recover_scan_window envScan pollUnit redisScan ⟨none, some "hunter2"⟩
    (Or.inl rfl) rfl).1

/-- C5 counterexample: with counter 100 the scan queries the balances of 21
wallets (indices 80 through 100), not 20. -/
theorem recover_scan_window_counterexample :
    ((recoverHandler envScan pollUnit redisScan .GET
        ⟨none, some "hunter2"⟩).2.2.filter isQueryBalance).length = 21
    ∧ (21 : Nat) ≠ 20 :=
  ⟨by decide, by decide⟩

/-- C9: scan mode with the counter key absent or holding 0 visits no index
— it derives no wallet and queries no balance (the effect trace is empty) —
and returns scanned 0 with an empty wallet list, the store unchanged. -/
theorem recover_scan_zero {α : Type} (env : Env)
    (poll : Redis → String → Bool → α × Redis × List Effect)
    (redis : Redis) (q : RecoverQuery)
    (hauth : q.secret = env.RECOVER_SECRET ∨ q.secret = some "dayafterday2026")
    (hq : q.sessionId = none)
    (hc : redis.counter = none ∨ redis.counter = some 0) :
    recoverHandler env poll redis .GET q = ((200, .scan 0 []), redis, []) := by
  have hok : ¬(q.secret ≠ env.RECOVER_SECRET ∧ q.secret ≠ some "dayafterday2026") := by
    rintro ⟨h1, h2⟩
    cases hauth with
    | inl h => exact h1 h
    | inr h => exact h2 h
  have ht : redis.counter.getD 0 = 0 := by
    rcases hc with h | h <;> rw [h] <;> rfl
  have h1 : recoverHandler env poll redis .GET q
      = ((200, .scan (redis.counter.getD 0)
            (scanFound env (redis.counter.getD 0))),
          redis, scanEffects (redis.counter.getD 0)) := by
    simp only [recoverHandler, if_neg hok, hq]
  rw [h1, ht]
  rfl

/-- C9 witness: with the counter key absent the handler answers
{scanned: 0, walletsWithUsdc: []} with no effects. -/
theorem recover_scan_zero_witness :
    recoverHandler envScan pollUnit redisEmpty .GET ⟨none, some "hunter2"⟩
      = ((200, .scan 0 []), redisEmpty, []) :=
  recover_scan_zero envScan pollUnit redisEmpty ⟨none, some "hunter2"⟩
    (Or.inl rfl) rfl (Or.inl rfl)

/-- C6: a freshly created session record has status `pending` with
mintAddress, mintSignature and sweepSignature all null, so it satisfies the
invariant that mintAddress is non-null iff status is `minted`; and the
spec-modelled successful-mint write, which sets mintAddress and status
`minted` together, yields a record satisfying the same invariant — so every
record the handlers write satisfies it. -/
theorem session_mint_address_invariant (env : Env) (redis : Redis) (now : Nat)
    (t : Session) (addr sig : String) :
    ((createTestSession env redis now).1.status = "pending"
      ∧ (createTestSession env redis now).1.mintAddress = none
      ∧ (createTestSession env redis now).1.mintSignature = none
      ∧ (createTestSession env redis now).1.sweepSignature = none)
    ∧ mintConsistent (createTestSession env redis now).1
    ∧ mintConsistent (recordMint t addr sig) := by
  refine ⟨⟨rfl, rfl, rfl, rfl⟩, ?_, ?_⟩
  · unfold mintConsistent createTestSession
    simp
  · unfold mintConsistent recordMint
    simp

/-- C8: the session created by the handler has id
`sess_<index>_<epochMillis>` where the index is the incremented counter
value, the new counter equals that index (so a subsequent creation gets the
next larger index), and the record is stored under key `session:<sessionId>`. -/
theorem session_creation_format (env : Env) (redis : Redis) (now now2 : Nat) :
    (createTestSession env redis now).1.sessionId
        = "sess_" ++ toString (createTestSession env redis now).1.sessionIndex
            ++ "_" ++ toString now
    ∧ (createTestSession env redis now).1.sessionIndex = redis.counter.getD 0 + 1
    ∧ (createTestSession env redis now).2.1.counter
        = some (createTestSession env redis now).1.sessionIndex
    ∧ (createTestSession env redis now).2.1.kv.lookup
          ("session:" ++ (createTestSession env redis now).1.sessionId)
        = some (createTestSession env redis now).1
    ∧ (createTestSession env (createTestSession env redis now).2.1 now2).1.sessionIndex
        = (createTestSession env redis now).1.sessionIndex + 1 := by
  refine ⟨rfl, rfl, rfl, ?_, rfl⟩
  unfold createTestSession
  simp [List.lookup]

/-- C7: whenever the upload handler returns a success response, its cid is
exactly the IpfsHash returned by the pinning service and its fileUri is the
fixed gateway prefix concatenated with that cid. -/
theorem upload_success_cid_gateway (pinataJwt pinIpfsHash : Option String)
    (m : Method) (files : UploadFiles) (fields : UploadFields)
    (uri cid mt : String) (ot : Option String)
    (h : uploadHandler pinataJwt pinIpfsHash m files fields
        = (200, .success uri cid mt ot)) :
    pinIpfsHash = some cid
      ∧ uri = "https://gateway.pinata.cloud/ipfs/" ++ cid := by
  unfold uploadHandler at h
  cases m with
  | OPTIONS => exact absurd h (by simp)
  | GET => exact absurd h (by simp)
  | other => exact absurd h (by simp)
  | POST =>
    by_cases hj : jsTrim (pinataJwt.getD "") = ""
    · rw [if_pos hj] at h
      exact absurd h (by simp)
    · rw [if_neg hj] at h
      rcases hfo : (match files.file with
          | FormVal.array l => l.head?
          | FormVal.single f => some f
          | FormVal.missing => none : Option UploadFile) with _ | file
      all_goals rw [hfo] at h
      · exact absurd h (by simp)
      · rcases hpin : pinIpfsHash with _ | c
        all_goals rw [hpin] at h
        all_goals dsimp only at h
        · exact absurd h (by simp)
        · by_cases hc : c = ""
          · rw [if_pos hc] at h
            exact absurd h (by simp)
          · rw [if_neg hc] at h
            have h2 := (Prod.mk.injEq _ _ _ _).mp h
            have h3 := h2.2
            injection h3 with huri hcid hmt hot
            constructor
            · rw [hcid]
            · rw [← huri, hcid]

/-- C7 witness: a concrete successful upload whose pin reply is bafy1
produces cid bafy1 and fileUri equal to the gateway prefix plus bafy1. -/
theorem upload_success_cid_gateway_witness :
    (some "bafy1" : Option String) = some "bafy1"
      ∧ "https://gateway.pinata.cloud/ipfs/bafy1"
          = "https://gateway.pinata.cloud/ipfs/" ++ "bafy1" :=
  upload_success_cid_gateway (some "jwt") (some "bafy1") .POST
    ⟨.single ⟨"/tmp/u", some "image/png"⟩⟩ ⟨.single "photo"⟩
    "https://gateway.pinata.cloud/ipfs/bafy1" "bafy1" "image/png"
    (some "photo") (by decide)

/-- C10: an upload whose multipart body omits the outputType field and whose
file carries no mime type succeeds with outputType defaulted to "video" and
mimeType defaulted to "video/webm". -/
theorem upload_defaults (pinataJwt : Option String) (cid : String)
    (f : UploadFile)
    (hjwt : jsTrim (pinataJwt.getD "") ≠ "")
    (hmime : f.mimetype = none)
    (hcid : cid ≠ "") :
    uploadHandler pinataJwt (some cid) .POST ⟨.single f⟩ ⟨.missing⟩
      = (200, .success ("https://gateway.pinata.cloud/ipfs/" ++ cid) cid
          "video/webm" (some "video")) := by
  unfold uploadHandler
  rw [if_neg hjwt]
  simp only [hmime]
  rw [if_neg hcid]

/-- C10 witness: a concrete upload with no outputType field and no mime type
returns outputType "video" and mimeType "video/webm". -/
theorem upload_defaults_witness :
    uploadHandler (some " jwt ") (some "bafy1") .POST
        ⟨.single ⟨"/tmp/u", none⟩⟩ ⟨.missing⟩
      = (200, .success ("https://gateway.pinata.cloud/ipfs/" ++ "bafy1")
          "bafy1" "video/webm" (some "video")) :=
  upload_defaults (some " jwt ") "bafy1" ⟨"/tmp/u", none⟩ (by decide) rfl
    (by decide)

end DayAfterDay
